import Mathlib

/-!
# Verification of ADLX_3DSettings.cpp (HUDRA ADLX wrapper)

Shallow embedding of `src/ADLX_Wrapper_Source/ADLX_3DSettings/ADLX_3DSettings.cpp`.

The C++ file is a thin wrapper over the AMD ADLX SDK.  We model the vendor
(ADLX) layer as a record of responses (`Vendor`): for every vendor entry point
the record says which status code it returns and which handle / value it
writes to its out-parameter.  The wrapper's process-wide state is the single
flag `g_bInitialized`, modelled as a `Bool` threaded through every operation.

Every exported operation is translated statement by statement from the source.
Each operation also returns a `Counts` record that counts every vendor-layer
call and every handle acquire/release, mirroring the fake instrumented vendor
layer the specification's testable properties refer to.
-/

/-- ADLX_RESULT, abstracted to its two observable classes:
`ADLX_SUCCEEDED` and `ADLX_FAILED` (the source only ever tests these two). -/
inductive AdlxResult where
  | ok
  | fail
deriving DecidableEq, Repr

/-- Opaque data carried by one enumerated GPU (identity and properties).
The wrapper never reads it; it only checks presence of the first element. -/
structure GPUInfo where
  ident : Nat
  props : Nat
deriving DecidableEq, Repr

/-- Vendor responses for one feature-control interface obtained from the
3D-settings services object (e.g. `IADLX3DRadeonSuperResolution`).
`present` says whether the acquisition writes a non-null handle;
`enabled` / `sharpness` are the stored vendor-side property values;
the `...Res` fields are the status codes of the corresponding calls. -/
structure Feature where
  acquireRes : AdlxResult := .ok
  present : Bool := true
  isEnabledRes : AdlxResult := .ok
  enabled : Bool := false
  setEnabledRes : AdlxResult := .ok
  getSharpnessRes : AdlxResult := .ok
  sharpness : Int := 0
  setSharpnessRes : AdlxResult := .ok
deriving DecidableEq, Repr

/-- The feature interfaces the 3D-settings services object exposes, as far as
this wrapper is concerned.  `frtc` is `IADLX3DFrameRateTargetControl`
(obtained with `GetFrameRateTargetControl`), which is what the source's
AFMF-named exports actually acquire. -/
inductive FeatKind where
  | rsr
  | frtc
  | antiLag
deriving DecidableEq, Repr

/-- One fixed vendor behaviour: the status code and out-parameter content of
every ADLX entry point the wrapper can reach.  Feature property values
(`enabled`, `sharpness`) are the mutable vendor-side state. -/
structure Vendor where
  /-- Status of `g_ADLXHelper.Initialize()`. -/
  initRes : AdlxResult := .ok
  /-- Whether `GetSystemServices()` returns a non-null system pointer. -/
  sysPresent : Bool := true
  /-- Status of `sys->GetGPUs(&gpus)`. -/
  gpusRes : AdlxResult := .ok
  /-- Out-parameter of `GetGPUs`: `none` models a null list handle, `some l`
  a non-null handle enumerating the adapters `l`. -/
  gpusHandle : Option (List GPUInfo) := some [⟨0, 0⟩]
  /-- Status reported by `gpus->At(0, &gpu)` when the list is non-empty.
  On an empty list `At` fails and leaves the out-parameter null; on a
  non-empty list it writes the (non-null) first adapter and reports this
  status, so `atRes = .fail` on a non-empty list models the vendor response
  "failed status together with a non-null adapter handle". -/
  atRes : AdlxResult := .ok
  /-- Status of `sys->Get3DSettingsServices(&d3dSettingSrv)`
  (the source assigns it but never tests it). -/
  settingsRes : AdlxResult := .ok
  /-- Whether `Get3DSettingsServices` writes a non-null services pointer. -/
  settingsHandle : Bool := true
  /-- The `IADLX3DRadeonSuperResolution` interface. -/
  rsr : Feature := {}
  /-- The `IADLX3DFrameRateTargetControl` interface, acquired by the
  source's `HasAFMFSupport` / `GetAFMFState` / `SetAFMFState`. -/
  frtc : Feature := {}
  /-- The `IADLX3DAntiLag` interface. -/
  antiLag : Feature := {}
  /-- Modelled from the spec: the AMD Fluid Motion Frames (AFMF)
  frame-interpolation feature interface of the vendor 3D-settings service.
  The spec describes the AFMF operations as querying and mutating this
  interface; no code under `src/` ever acquires it (the source's AFMF
  exports call `GetFrameRateTargetControl` instead), so it is carried here
  only as the reference point for that claim. -/
  afmf : Feature := {}
deriving DecidableEq, Repr

/-- Select the feature record a given acquisition call targets. -/
def Vendor.feat (v : Vendor) : FeatKind → Feature
  | .rsr => v.rsr
  | .frtc => v.frtc
  | .antiLag => v.antiLag

/-- Replace the feature record a given acquisition call targets. -/
def Vendor.setFeat (v : Vendor) : FeatKind → Feature → Vendor
  | .rsr, f => { v with rsr := f }
  | .frtc, f => { v with frtc := f }
  | .antiLag, f => { v with antiLag := f }

/-- Instrumentation of the fake vendor layer: number of calls into each
vendor entry point and number of handles acquired (non-null out-parameter)
and released, per handle type, during one wrapper call. -/
structure Counts where
  /-- Calls to `g_ADLXHelper.Initialize()` (the root-initialization step). -/
  initCalls : Nat := 0
  /-- Calls to `GetSystemServices()`. -/
  sysCalls : Nat := 0
  /-- Calls to `sys->GetGPUs`. -/
  gpusCalls : Nat := 0
  /-- Non-null GPU-list handles received. -/
  gpusAcq : Nat := 0
  /-- Number of `gpus->Release()` calls. -/
  gpusRel : Nat := 0
  /-- Calls to `gpus->At(0, &gpu)`. -/
  atCalls : Nat := 0
  /-- Non-null adapter handles received. -/
  gpuAcq : Nat := 0
  /-- Number of `gpu->Release()` calls. -/
  gpuRel : Nat := 0
  /-- Calls to `sys->Get3DSettingsServices`. -/
  svcCalls : Nat := 0
  /-- Non-null 3D-settings-services handles received. -/
  svcAcq : Nat := 0
  /-- Number of `d3dSettingSrv->Release()` calls. -/
  svcRel : Nat := 0
  /-- Feature-handle acquisition attempts
  (`GetRadeonSuperResolution` / `GetFrameRateTargetControl` / `GetAntiLag`). -/
  featCalls : Nat := 0
  /-- Non-null feature handles received. -/
  featAcq : Nat := 0
  /-- Feature-handle `Release()` calls. -/
  featRel : Nat := 0
  /-- Calls to `IsEnabled`. -/
  isEnabledCalls : Nat := 0
  /-- Calls to `GetSharpness`. -/
  getSharpnessCalls : Nat := 0
  /-- Calls to `SetEnabled` or `SetSharpness` (vendor-side writes). -/
  writeCalls : Nat := 0
deriving DecidableEq, Repr

/-- The all-zero instrumentation record: no vendor interaction at all. -/
def Counts.zero : Counts := {}

/-- Pointwise sum of two instrumentation records. -/
def Counts.add (a b : Counts) : Counts where
  initCalls := a.initCalls + b.initCalls
  sysCalls := a.sysCalls + b.sysCalls
  gpusCalls := a.gpusCalls + b.gpusCalls
  gpusAcq := a.gpusAcq + b.gpusAcq
  gpusRel := a.gpusRel + b.gpusRel
  atCalls := a.atCalls + b.atCalls
  gpuAcq := a.gpuAcq + b.gpuAcq
  gpuRel := a.gpuRel + b.gpuRel
  svcCalls := a.svcCalls + b.svcCalls
  svcAcq := a.svcAcq + b.svcAcq
  svcRel := a.svcRel + b.svcRel
  featCalls := a.featCalls + b.featCalls
  featAcq := a.featAcq + b.featAcq
  featRel := a.featRel + b.featRel
  isEnabledCalls := a.isEnabledCalls + b.isEnabledCalls
  getSharpnessCalls := a.getSharpnessCalls + b.getSharpnessCalls
  writeCalls := a.writeCalls + b.writeCalls

/-- Source function `InitializeADLX` (lines 15-27): returns `true` immediately when the
global flag `g_bInitialized` is already set; otherwise calls
`g_ADLXHelper.Initialize()`, sets the flag on success, and returns whether it
succeeded.  Result: `(returned bool, new g_bInitialized, counts)`. -/
def InitializeADLX (v : Vendor) (inited : Bool) : Bool × Bool × Counts :=
  if inited then
    (true, true, Counts.zero)
  else
    match v.initRes with
    | .ok => (true, true, { initCalls := 1 })
    | .fail => (false, false, { initCalls := 1 })

/-- Source function `Get3DGraphicsServices` (lines 30-66): initialize, get the system
services, get the GPU list, get the first GPU, get the 3D-settings services,
release the list and GPU handles, and return the services pointer (modelled
as the `Bool` "non-null").  Note three source facts preserved here: when
`GetGPUs` returns a failed status together with a non-null list handle the
function returns without releasing that handle (lines 43-45); when `At(0)`
returns a failed status together with a non-null adapter handle the list
handle is released but the adapter handle is not (lines 48-54); and the
status of `Get3DSettingsServices` is assigned but never tested.
Result: `(services non-null, new g_bInitialized, counts)`. -/
def Get3DGraphicsServices (v : Vendor) (inited : Bool) : Bool × Bool × Counts :=
  let (initOk, inited1, c0) := InitializeADLX v inited
  if !initOk then
    (false, inited1, c0)
  else
    let c1 := c0.add { sysCalls := 1 }
    if !v.sysPresent then
      (false, inited1, c1)
    else
      let c2 := c1.add
        { gpusCalls := 1, gpusAcq := if v.gpusHandle.isSome then 1 else 0 }
      match v.gpusRes, v.gpusHandle with
      | .fail, _ => (false, inited1, c2)
      | .ok, none => (false, inited1, c2)
      | .ok, some gpus =>
        let c3 := c2.add { atCalls := 1 }
        match gpus with
        | [] =>
          (false, inited1, c3.add { gpusRel := 1 })
        | _gpu :: _ =>
          let c4 := c3.add { gpuAcq := 1 }
          match v.atRes with
          | .fail =>
            (false, inited1, c4.add { gpusRel := 1 })
          | .ok =>
            let c5 := c4.add
              { svcCalls := 1, svcAcq := if v.settingsHandle then 1 else 0 }
            let c6 := c5.add { gpusRel := 1, gpuRel := 1 }
            (v.settingsHandle, inited1, c6)

/-- Common body of `HasRSRSupport` / `HasAFMFSupport` / `HasAntiLagSupport`
(source lines 72-89, 195-212, 265-282), with the feature-acquisition call
selected by `k`: resolve the services, acquire the feature handle, report
`ADLX_SUCCEEDED(res) && handle != nullptr`, release the feature handle and
the services handle. -/
def hasSupportOp (k : FeatKind) (v : Vendor) (inited : Bool) :
    Bool × Bool × Counts :=
  let r := Get3DGraphicsServices v inited
  if !r.1 then
    (false, r.2.1, r.2.2)
  else
    let f := v.feat k
    let c1 := r.2.2.add { featCalls := 1, featAcq := if f.present then 1 else 0 }
    let supported := (f.acquireRes == .ok) && f.present
    let c2 := c1.add { featRel := if f.present then 1 else 0, svcRel := 1 }
    (supported, r.2.1, c2)

/-- Common body of `GetRSRState` / `GetAFMFState` / `GetAntiLagState`
(source lines 91-112, 214-235, 284-305): `enabled` starts `false`; when the
feature handle is acquired, `IsEnabled(&enabled)` is called and its status is
ignored (on failure the out-parameter is left untouched, so `enabled` keeps
its default `false`). -/
def getStateOp (k : FeatKind) (v : Vendor) (inited : Bool) :
    Bool × Bool × Counts :=
  let r := Get3DGraphicsServices v inited
  if !r.1 then
    (false, r.2.1, r.2.2)
  else
    let f := v.feat k
    let c1 := r.2.2.add { featCalls := 1, featAcq := if f.present then 1 else 0 }
    let q :=
      if (f.acquireRes == .ok) && f.present then
        ((if f.isEnabledRes == .ok then f.enabled else false),
          c1.add { isEnabledCalls := 1 })
      else
        (false, c1)
    let c3 := q.2.add { featRel := if f.present then 1 else 0, svcRel := 1 }
    (q.1, r.2.1, c3)

/-- Common body of `SetRSR` / `SetAFMFState` / `SetAntiLagState`
(source lines 114-136, 237-259, 307-329): when the feature handle is
acquired, `SetEnabled(isEnabled)` is called; the vendor-side flag changes
exactly when that write succeeds, and `success` reports its status.
Result: `(success, new vendor state, new g_bInitialized, counts)`. -/
def setStateOp (k : FeatKind) (isEnabled : Bool) (v : Vendor) (inited : Bool) :
    Bool × Vendor × Bool × Counts :=
  let r := Get3DGraphicsServices v inited
  if !r.1 then
    (false, v, r.2.1, r.2.2)
  else
    let f := v.feat k
    let c1 := r.2.2.add { featCalls := 1, featAcq := if f.present then 1 else 0 }
    let w :=
      if (f.acquireRes == .ok) && f.present then
        match f.setEnabledRes with
        | .ok =>
          (true, v.setFeat k { f with enabled := isEnabled },
            c1.add { writeCalls := 1 })
        | .fail => (false, v, c1.add { writeCalls := 1 })
      else
        (false, v, c1)
    let c3 := w.2.2.add { featRel := if f.present then 1 else 0, svcRel := 1 }
    (w.1, w.2.1, r.2.1, c3)

/-- Export `HasRSRSupport` (source lines 72-89). -/
def HasRSRSupport (v : Vendor) (inited : Bool) : Bool × Bool × Counts :=
  hasSupportOp .rsr v inited

/-- Export `GetRSRState` (source lines 91-112). -/
def GetRSRState (v : Vendor) (inited : Bool) : Bool × Bool × Counts :=
  getStateOp .rsr v inited

/-- Export `SetRSR` (source lines 114-136). -/
def SetRSR (isEnabled : Bool) (v : Vendor) (inited : Bool) :
    Bool × Vendor × Bool × Counts :=
  setStateOp .rsr isEnabled v inited

/-- Export `GetRSRSharpness` (source lines 138-162): `sharpness` starts at `-1`; when
the RSR handle is acquired and `GetSharpness` succeeds the vendor value is
returned as-is (the source neither clamps nor range-checks it).
Result: `(sharpness, new g_bInitialized, counts)`. -/
def GetRSRSharpness (v : Vendor) (inited : Bool) : Int × Bool × Counts :=
  let r := Get3DGraphicsServices v inited
  if !r.1 then
    (-1, r.2.1, r.2.2)
  else
    let f := v.rsr
    let c1 := r.2.2.add { featCalls := 1, featAcq := if f.present then 1 else 0 }
    let q :=
      if (f.acquireRes == .ok) && f.present then
        ((if f.getSharpnessRes == .ok then f.sharpness else -1),
          c1.add { getSharpnessCalls := 1 })
      else
        (-1, c1)
    let c3 := q.2.add { featRel := if f.present then 1 else 0, svcRel := 1 }
    (q.1, r.2.1, c3)

/-- Export `SetRSRSharpness` (source lines 164-189): inputs outside `[0,100]` are
rejected before any vendor call (`if (sharpness < 0 || sharpness > 100)
return false;`); otherwise the RSR chain is resolved and `SetSharpness` is
called, the vendor value changing exactly when the write succeeds. -/
def SetRSRSharpness (sharpness : Int) (v : Vendor) (inited : Bool) :
    Bool × Vendor × Bool × Counts :=
  if sharpness < 0 ∨ sharpness > 100 then
    (false, v, inited, Counts.zero)
  else
    let r := Get3DGraphicsServices v inited
    if !r.1 then
      (false, v, r.2.1, r.2.2)
    else
      let f := v.rsr
      let c1 := r.2.2.add { featCalls := 1, featAcq := if f.present then 1 else 0 }
      let w :=
        if (f.acquireRes == .ok) && f.present then
          match f.setSharpnessRes with
          | .ok =>
            (true, { v with rsr := { f with sharpness := sharpness } },
              c1.add { writeCalls := 1 })
          | .fail => (false, v, c1.add { writeCalls := 1 })
        else
          (false, v, c1)
      let c3 := w.2.2.add { featRel := if f.present then 1 else 0, svcRel := 1 }
      (w.1, w.2.1, r.2.1, c3)

/-- Export `HasAFMFSupport` (source lines 195-212): the source acquires the
`IADLX3DFrameRateTargetControl` interface via `GetFrameRateTargetControl`. -/
def HasAFMFSupport (v : Vendor) (inited : Bool) : Bool × Bool × Counts :=
  hasSupportOp .frtc v inited

/-- Export `GetAFMFState` (source lines 214-235): reads the enabled flag of the
`IADLX3DFrameRateTargetControl` interface. -/
def GetAFMFState (v : Vendor) (inited : Bool) : Bool × Bool × Counts :=
  getStateOp .frtc v inited

/-- Export `SetAFMFState` (source lines 237-259): writes the enabled flag of the
`IADLX3DFrameRateTargetControl` interface. -/
def SetAFMFState (isEnabled : Bool) (v : Vendor) (inited : Bool) :
    Bool × Vendor × Bool × Counts :=
  setStateOp .frtc isEnabled v inited

/-- Export `HasAntiLagSupport` (source lines 265-282). -/
def HasAntiLagSupport (v : Vendor) (inited : Bool) : Bool × Bool × Counts :=
  hasSupportOp .antiLag v inited

/-- Export `GetAntiLagState` (source lines 284-305). -/
def GetAntiLagState (v : Vendor) (inited : Bool) : Bool × Bool × Counts :=
  getStateOp .antiLag v inited

/-- Export `SetAntiLagState` (source lines 307-329). -/
def SetAntiLagState (isEnabled : Bool) (v : Vendor) (inited : Bool) :
    Bool × Vendor × Bool × Counts :=
  setStateOp .antiLag isEnabled v inited

/-- The eleven exported operations of the DLL. -/
inductive Op where
  | hasRSRSupport
  | getRSRState
  | setRSR (x : Bool)
  | getRSRSharpness
  | setRSRSharpness (x : Int)
  | hasAFMFSupport
  | getAFMFState
  | setAFMFState (x : Bool)
  | hasAntiLagSupport
  | getAntiLagState
  | setAntiLagState (x : Bool)
deriving DecidableEq, Repr

/-- Result of one exported operation: a boolean or an integer. -/
inductive OpResult where
  | b (x : Bool)
  | i (x : Int)
deriving DecidableEq, Repr

/-- Dispatch one exported operation against the vendor and process state.
Result: `(return value, new vendor state, new g_bInitialized, counts)`. -/
def runOp : Op → Vendor → Bool → OpResult × Vendor × Bool × Counts
  | .hasRSRSupport, v, i =>
    let r := HasRSRSupport v i
    (.b r.1, v, r.2.1, r.2.2)
  | .getRSRState, v, i =>
    let r := GetRSRState v i
    (.b r.1, v, r.2.1, r.2.2)
  | .setRSR x, v, i =>
    let r := SetRSR x v i
    (.b r.1, r.2.1, r.2.2.1, r.2.2.2)
  | .getRSRSharpness, v, i =>
    let r := GetRSRSharpness v i
    (.i r.1, v, r.2.1, r.2.2)
  | .setRSRSharpness x, v, i =>
    let r := SetRSRSharpness x v i
    (.b r.1, r.2.1, r.2.2.1, r.2.2.2)
  | .hasAFMFSupport, v, i =>
    let r := HasAFMFSupport v i
    (.b r.1, v, r.2.1, r.2.2)
  | .getAFMFState, v, i =>
    let r := GetAFMFState v i
    (.b r.1, v, r.2.1, r.2.2)
  | .setAFMFState x, v, i =>
    let r := SetAFMFState x v i
    (.b r.1, r.2.1, r.2.2.1, r.2.2.2)
  | .hasAntiLagSupport, v, i =>
    let r := HasAntiLagSupport v i
    (.b r.1, v, r.2.1, r.2.2)
  | .getAntiLagState, v, i =>
    let r := GetAntiLagState v i
    (.b r.1, v, r.2.1, r.2.2)
  | .setAntiLagState x, v, i =>
    let r := SetAntiLagState x v i
    (.b r.1, r.2.1, r.2.2.1, r.2.2.2)

/-- Run a sequence of exported operations, starting from vendor state `v` and
initialization flag `inited`, accumulating the instrumentation counts.
Result: `(final vendor state, final g_bInitialized, total counts)`. -/
def runSeq : List Op → Vendor → Bool → Vendor × Bool × Counts
  | [], v, i => (v, i, Counts.zero)
  | op :: rest, v, i =>
    let r1 := runOp op v i
    let r2 := runSeq rest r1.2.1 r1.2.2.1
    (r2.1, r2.2.1, r1.2.2.2.add r2.2.2)

/-- The read-only operations: the `Has*Support` checks and the `Get*`
queries.  They never mutate the vendor state. -/
def Op.isGet : Op → Bool
  | .hasRSRSupport => true
  | .getRSRState => true
  | .getRSRSharpness => true
  | .hasAFMFSupport => true
  | .getAFMFState => true
  | .hasAntiLagSupport => true
  | .getAntiLagState => true
  | _ => false

/-- The failure sentinel of each exported operation: `-1` for
`GetRSRSharpness`, `false` for all the boolean operations. -/
def Op.failSentinel : Op → OpResult
  | .getRSRSharpness => .i (-1)
  | _ => .b false

/-- Whether the `GetGPUs` out-parameter holds a non-null, non-empty adapter
list (so that `At(0)` writes a non-null first adapter). -/
def firstAdapterPresent (v : Vendor) : Bool :=
  match v.gpusHandle with
  | some (_ :: _) => true
  | _ => false

/-- Whether the handle-resolution chain up to the 3D-settings services
succeeds: initialization (already done or succeeding now), non-null system
services, successful `GetGPUs` with a non-null, non-empty list, successful
`At(0)`, and a non-null settings-services pointer. -/
def chainOk (v : Vendor) (inited : Bool) : Bool :=
  (inited || v.initRes == .ok) && v.sysPresent && (v.gpusRes == .ok) &&
    (match v.gpusHandle with
      | some (_ :: _) => true
      | _ => false) &&
    (v.atRes == .ok) &&
    v.settingsHandle

/-- Whether the acquisition of feature `k` succeeds: successful status and a
non-null handle. -/
def featAcquired (v : Vendor) (k : FeatKind) : Bool :=
  ((v.feat k).acquireRes == .ok) && (v.feat k).present

/-- Acquire/release balance of one instrumented call: per handle type, the
number of non-null handles received equals the number of `Release` calls. -/
def balanced (c : Counts) : Prop :=
  c.gpusAcq = c.gpusRel ∧ c.gpuAcq = c.gpuRel ∧ c.svcAcq = c.svcRel ∧
    c.featAcq = c.featRel

theorem get3d_fst (v : Vendor) (inited : Bool) :
    (Get3DGraphicsServices v inited).1 = chainOk v inited := by
  rcases v with ⟨ir, sp, gr, gh, ar0, str, sh, rsrF, frtcF, alF, afF⟩
  cases inited <;> cases ir <;> cases sp <;> cases gr <;>
    rcases gh with _ | ⟨_ | ⟨g, gs⟩⟩ <;> cases ar0 <;> cases sh <;> rfl

theorem get3d_inited (v : Vendor) (inited : Bool) :
    (Get3DGraphicsServices v inited).2.1 = (inited || (v.initRes == .ok)) := by
  rcases v with ⟨ir, sp, gr, gh, ar0, str, sh, rsrF, frtcF, alF, afF⟩
  cases inited <;> cases ir <;> cases sp <;> cases gr <;>
    rcases gh with _ | ⟨_ | ⟨g, gs⟩⟩ <;> cases ar0 <;> cases sh <;> rfl

theorem get3d_initCalls (v : Vendor) (inited : Bool) :
    (Get3DGraphicsServices v inited).2.2.initCalls = if inited then 0 else 1 := by
  rcases v with ⟨ir, sp, gr, gh, ar0, str, sh, rsrF, frtcF, alF, afF⟩
  cases inited <;> cases ir <;> cases sp <;> cases gr <;>
    rcases gh with _ | ⟨_ | ⟨g, gs⟩⟩ <;> cases ar0 <;> cases sh <;> rfl

theorem get3d_featCalls (v : Vendor) (inited : Bool) :
    (Get3DGraphicsServices v inited).2.2.featCalls = 0 := by
  rcases v with ⟨ir, sp, gr, gh, ar0, str, sh, rsrF, frtcF, alF, afF⟩
  cases inited <;> cases ir <;> cases sp <;> cases gr <;>
    rcases gh with _ | ⟨_ | ⟨g, gs⟩⟩ <;> cases ar0 <;> cases sh <;> rfl

theorem get3d_featAcq (v : Vendor) (inited : Bool) :
    (Get3DGraphicsServices v inited).2.2.featAcq = 0 := by
  rcases v with ⟨ir, sp, gr, gh, ar0, str, sh, rsrF, frtcF, alF, afF⟩
  cases inited <;> cases ir <;> cases sp <;> cases gr <;>
    rcases gh with _ | ⟨_ | ⟨g, gs⟩⟩ <;> cases ar0 <;> cases sh <;> rfl

theorem get3d_featRel (v : Vendor) (inited : Bool) :
    (Get3DGraphicsServices v inited).2.2.featRel = 0 := by
  rcases v with ⟨ir, sp, gr, gh, ar0, str, sh, rsrF, frtcF, alF, afF⟩
  cases inited <;> cases ir <;> cases sp <;> cases gr <;>
    rcases gh with _ | ⟨_ | ⟨g, gs⟩⟩ <;> cases ar0 <;> cases sh <;> rfl

theorem get3d_svcRel (v : Vendor) (inited : Bool) :
    (Get3DGraphicsServices v inited).2.2.svcRel = 0 := by
  rcases v with ⟨ir, sp, gr, gh, ar0, str, sh, rsrF, frtcF, alF, afF⟩
  cases inited <;> cases ir <;> cases sp <;> cases gr <;>
    rcases gh with _ | ⟨_ | ⟨g, gs⟩⟩ <;> cases ar0 <;> cases sh <;> rfl

theorem get3d_svcAcq (v : Vendor) (inited : Bool) :
    (Get3DGraphicsServices v inited).2.2.svcAcq =
      if chainOk v inited then 1 else 0 := by
  rcases v with ⟨ir, sp, gr, gh, ar0, str, sh, rsrF, frtcF, alF, afF⟩
  cases inited <;> cases ir <;> cases sp <;> cases gr <;>
    rcases gh with _ | ⟨_ | ⟨g, gs⟩⟩ <;> cases ar0 <;> cases sh <;> rfl

theorem get3d_balance (v : Vendor) (inited : Bool)
    (h1 : v.gpusRes = .fail → v.gpusHandle = none)
    (h2 : v.atRes = .fail → firstAdapterPresent v = false) :
    (Get3DGraphicsServices v inited).2.2.gpusAcq =
        (Get3DGraphicsServices v inited).2.2.gpusRel ∧
      (Get3DGraphicsServices v inited).2.2.gpuAcq =
        (Get3DGraphicsServices v inited).2.2.gpuRel := by
  rcases v with ⟨ir, sp, gr, gh, ar0, str, sh, rsrF, frtcF, alF, afF⟩
  cases inited <;> cases ir <;> cases sp <;> cases gr <;>
    rcases gh with _ | ⟨_ | ⟨g, gs⟩⟩ <;> cases ar0 <;> cases sh <;>
    first
    | exact ⟨rfl, rfl⟩
    | simp_all [firstAdapterPresent]

theorem hasSupportOp_fst (k : FeatKind) (v : Vendor) (inited : Bool) :
    (hasSupportOp k v inited).1 = (chainOk v inited && featAcquired v k) := by
  simp only [hasSupportOp]
  cases hc : chainOk v inited <;>
    simp [get3d_fst, hc, featAcquired]

theorem hasSupportOp_inited (k : FeatKind) (v : Vendor) (inited : Bool) :
    (hasSupportOp k v inited).2.1 = (inited || (v.initRes == .ok)) := by
  simp only [hasSupportOp]
  cases hc : chainOk v inited <;>
    simp [get3d_fst, get3d_inited, hc]

theorem hasSupportOp_initCalls (k : FeatKind) (v : Vendor) (inited : Bool) :
    (hasSupportOp k v inited).2.2.initCalls = if inited then 0 else 1 := by
  simp only [hasSupportOp]
  cases hc : chainOk v inited <;>
    simp [get3d_fst, hc, Counts.add, get3d_initCalls]

theorem hasSupportOp_featCalls (k : FeatKind) (v : Vendor) (inited : Bool) :
    (hasSupportOp k v inited).2.2.featCalls = if chainOk v inited then 1 else 0 := by
  simp only [hasSupportOp]
  cases hc : chainOk v inited <;>
    simp [get3d_fst, hc, Counts.add, get3d_featCalls]

theorem hasSupportOp_balanced (k : FeatKind) (v : Vendor) (inited : Bool)
    (h1 : v.gpusRes = .fail → v.gpusHandle = none)
    (h2 : v.atRes = .fail → firstAdapterPresent v = false) :
    balanced (hasSupportOp k v inited).2.2 := by
  obtain ⟨hb1, hb2⟩ := get3d_balance v inited h1 h2
  simp only [hasSupportOp, balanced]
  cases hc : chainOk v inited <;>
    simp [get3d_fst, hc, Counts.add, hb1, hb2, get3d_svcAcq, get3d_svcRel,
      get3d_featAcq, get3d_featRel]

theorem getStateOp_fst (k : FeatKind) (v : Vendor) (inited : Bool) :
    (getStateOp k v inited).1 =
      (chainOk v inited && featAcquired v k &&
        ((v.feat k).isEnabledRes == .ok) && (v.feat k).enabled) := by
  simp only [getStateOp]
  cases hc : chainOk v inited
  · simp [get3d_fst, hc]
  · cases ha : featAcquired v k
    · simp only [featAcquired] at ha
      simp [get3d_fst, hc, ha]
    · simp only [featAcquired] at ha
      simp only [get3d_fst, hc, ha]
      cases hie : (v.feat k).isEnabledRes == .ok <;> simp [hie]

theorem getStateOp_inited (k : FeatKind) (v : Vendor) (inited : Bool) :
    (getStateOp k v inited).2.1 = (inited || (v.initRes == .ok)) := by
  simp only [getStateOp]
  cases hc : chainOk v inited <;>
    cases ha : ((v.feat k).acquireRes == .ok) && (v.feat k).present <;>
    simp [get3d_fst, get3d_inited, hc, ha]

theorem getStateOp_initCalls (k : FeatKind) (v : Vendor) (inited : Bool) :
    (getStateOp k v inited).2.2.initCalls = if inited then 0 else 1 := by
  simp only [getStateOp]
  cases hc : chainOk v inited <;>
    cases ha : ((v.feat k).acquireRes == .ok) && (v.feat k).present <;>
    simp [get3d_fst, hc, ha, Counts.add, get3d_initCalls]

theorem getStateOp_featCalls (k : FeatKind) (v : Vendor) (inited : Bool) :
    (getStateOp k v inited).2.2.featCalls = if chainOk v inited then 1 else 0 := by
  simp only [getStateOp]
  cases hc : chainOk v inited <;>
    cases ha : ((v.feat k).acquireRes == .ok) && (v.feat k).present <;>
    simp [get3d_fst, hc, ha, Counts.add, get3d_featCalls]

theorem getStateOp_balanced (k : FeatKind) (v : Vendor) (inited : Bool)
    (h1 : v.gpusRes = .fail → v.gpusHandle = none)
    (h2 : v.atRes = .fail → firstAdapterPresent v = false) :
    balanced (getStateOp k v inited).2.2 := by
  obtain ⟨hb1, hb2⟩ := get3d_balance v inited h1 h2
  simp only [getStateOp, balanced]
  cases hc : chainOk v inited <;>
    cases ha : ((v.feat k).acquireRes == .ok) && (v.feat k).present <;>
    simp [get3d_fst, hc, ha, Counts.add, hb1, hb2, get3d_svcAcq, get3d_svcRel,
      get3d_featAcq, get3d_featRel]

theorem setStateOp_fst (k : FeatKind) (b : Bool) (v : Vendor) (inited : Bool) :
    (setStateOp k b v inited).1 =
      (chainOk v inited && featAcquired v k &&
        ((v.feat k).setEnabledRes == .ok)) := by
  simp only [setStateOp]
  cases hc : chainOk v inited
  · simp [get3d_fst, hc]
  · cases ha : featAcquired v k
    · simp only [featAcquired] at ha
      simp [get3d_fst, hc, ha]
    · simp only [featAcquired] at ha
      simp only [get3d_fst, hc, ha]
      cases hs : (v.feat k).setEnabledRes <;> simp [hs]

theorem setStateOp_vendor (k : FeatKind) (b : Bool) (v : Vendor) (inited : Bool) :
    (setStateOp k b v inited).2.1 =
      if (setStateOp k b v inited).1 then
        v.setFeat k { v.feat k with enabled := b }
      else v := by
  rw [setStateOp_fst]
  simp only [setStateOp]
  cases hc : chainOk v inited
  · simp [get3d_fst, hc]
  · cases ha : featAcquired v k
    · simp only [featAcquired] at ha
      simp [get3d_fst, hc, ha]
    · simp only [featAcquired] at ha
      simp only [get3d_fst, hc, ha]
      cases hs : (v.feat k).setEnabledRes <;> simp [hs]

theorem setStateOp_inited (k : FeatKind) (b : Bool) (v : Vendor) (inited : Bool) :
    (setStateOp k b v inited).2.2.1 = (inited || (v.initRes == .ok)) := by
  simp only [setStateOp]
  cases hc : chainOk v inited <;>
    cases ha : ((v.feat k).acquireRes == .ok) && (v.feat k).present <;>
    cases hs : (v.feat k).setEnabledRes <;>
    simp [get3d_fst, get3d_inited, hc, ha, hs]

theorem setStateOp_initCalls (k : FeatKind) (b : Bool) (v : Vendor) (inited : Bool) :
    (setStateOp k b v inited).2.2.2.initCalls = if inited then 0 else 1 := by
  simp only [setStateOp]
  cases hc : chainOk v inited <;>
    cases ha : ((v.feat k).acquireRes == .ok) && (v.feat k).present <;>
    cases hs : (v.feat k).setEnabledRes <;>
    simp [get3d_fst, hc, ha, hs, Counts.add, get3d_initCalls]

theorem setStateOp_featCalls (k : FeatKind) (b : Bool) (v : Vendor) (inited : Bool) :
    (setStateOp k b v inited).2.2.2.featCalls =
      if chainOk v inited then 1 else 0 := by
  simp only [setStateOp]
  cases hc : chainOk v inited <;>
    cases ha : ((v.feat k).acquireRes == .ok) && (v.feat k).present <;>
    cases hs : (v.feat k).setEnabledRes <;>
    simp [get3d_fst, hc, ha, hs, Counts.add, get3d_featCalls]

theorem setStateOp_balanced (k : FeatKind) (b : Bool) (v : Vendor) (inited : Bool)
    (h1 : v.gpusRes = .fail → v.gpusHandle = none)
    (h2 : v.atRes = .fail → firstAdapterPresent v = false) :
    balanced (setStateOp k b v inited).2.2.2 := by
  obtain ⟨hb1, hb2⟩ := get3d_balance v inited h1 h2
  simp only [setStateOp, balanced]
  cases hc : chainOk v inited <;>
    cases ha : ((v.feat k).acquireRes == .ok) && (v.feat k).present <;>
    cases hs : (v.feat k).setEnabledRes <;>
    simp [get3d_fst, hc, ha, hs, Counts.add, hb1, hb2, get3d_svcAcq,
      get3d_svcRel, get3d_featAcq, get3d_featRel]

theorem getRSRSharpness_fst (v : Vendor) (inited : Bool) :
    (GetRSRSharpness v inited).1 =
      if chainOk v inited && featAcquired v .rsr &&
          (v.rsr.getSharpnessRes == .ok) then
        v.rsr.sharpness
      else (-1 : Int) := by
  simp only [GetRSRSharpness]
  cases hc : chainOk v inited
  · simp [get3d_fst, hc]
  · cases ha : featAcquired v .rsr
    · simp only [featAcquired, Vendor.feat] at ha
      simp [get3d_fst, hc, ha]
    · simp only [featAcquired, Vendor.feat] at ha
      simp only [get3d_fst, hc, ha]
      cases hg : v.rsr.getSharpnessRes == .ok <;> simp [hg]

theorem getRSRSharpness_inited (v : Vendor) (inited : Bool) :
    (GetRSRSharpness v inited).2.1 = (inited || (v.initRes == .ok)) := by
  simp only [GetRSRSharpness]
  cases hc : chainOk v inited <;>
    cases ha : (v.rsr.acquireRes == .ok) && v.rsr.present <;>
    simp [get3d_fst, get3d_inited, hc, ha]

theorem getRSRSharpness_initCalls (v : Vendor) (inited : Bool) :
    (GetRSRSharpness v inited).2.2.initCalls = if inited then 0 else 1 := by
  simp only [GetRSRSharpness]
  cases hc : chainOk v inited <;>
    cases ha : (v.rsr.acquireRes == .ok) && v.rsr.present <;>
    simp [get3d_fst, hc, ha, Counts.add, get3d_initCalls]

theorem getRSRSharpness_featCalls (v : Vendor) (inited : Bool) :
    (GetRSRSharpness v inited).2.2.featCalls =
      if chainOk v inited then 1 else 0 := by
  simp only [GetRSRSharpness]
  cases hc : chainOk v inited <;>
    cases ha : (v.rsr.acquireRes == .ok) && v.rsr.present <;>
    simp [get3d_fst, hc, ha, Counts.add, get3d_featCalls]

theorem getRSRSharpness_balanced (v : Vendor) (inited : Bool)
    (h1 : v.gpusRes = .fail → v.gpusHandle = none)
    (h2 : v.atRes = .fail → firstAdapterPresent v = false) :
    balanced (GetRSRSharpness v inited).2.2 := by
  obtain ⟨hb1, hb2⟩ := get3d_balance v inited h1 h2
  simp only [GetRSRSharpness, balanced]
  cases hc : chainOk v inited <;>
    cases ha : (v.rsr.acquireRes == .ok) && v.rsr.present <;>
    simp [get3d_fst, hc, ha, Counts.add, hb1, hb2, get3d_svcAcq, get3d_svcRel,
      get3d_featAcq, get3d_featRel]

theorem setRSRSharpness_out_of_range (x : Int) (v : Vendor) (inited : Bool)
    (hx : x < 0 ∨ x > 100) :
    SetRSRSharpness x v inited = (false, v, inited, Counts.zero) := by
  simp only [SetRSRSharpness]
  rw [if_pos hx]

theorem setRSRSharpness_fst (x : Int) (v : Vendor) (inited : Bool) :
    (SetRSRSharpness x v inited).1 =
      if x < 0 ∨ x > 100 then false
      else
        (chainOk v inited && featAcquired v .rsr &&
          (v.rsr.setSharpnessRes == .ok)) := by
  by_cases hx : x < 0 ∨ x > 100
  · rw [setRSRSharpness_out_of_range x v inited hx, if_pos hx]
  · rw [if_neg hx]
    simp only [SetRSRSharpness]
    rw [if_neg hx]
    cases hc : chainOk v inited
    · simp [get3d_fst, hc]
    · cases ha : featAcquired v .rsr
      · simp only [featAcquired, Vendor.feat] at ha
        simp [get3d_fst, hc, ha]
      · simp only [featAcquired, Vendor.feat] at ha
        simp only [get3d_fst, hc, ha]
        cases hs : v.rsr.setSharpnessRes <;> simp [hs]

theorem setRSRSharpness_vendor (x : Int) (v : Vendor) (inited : Bool) :
    (SetRSRSharpness x v inited).2.1 =
      if (SetRSRSharpness x v inited).1 then
        { v with rsr := { v.rsr with sharpness := x } }
      else v := by
  rw [setRSRSharpness_fst]
  by_cases hx : x < 0 ∨ x > 100
  · rw [setRSRSharpness_out_of_range x v inited hx]
    simp [hx]
  · simp only [SetRSRSharpness]
    rw [if_neg hx, if_neg hx]
    cases hc : chainOk v inited
    · simp [get3d_fst, hc]
    · cases ha : featAcquired v .rsr
      · simp only [featAcquired, Vendor.feat] at ha
        simp [get3d_fst, hc, ha]
      · simp only [featAcquired, Vendor.feat] at ha
        simp only [get3d_fst, hc, ha]
        cases hs : v.rsr.setSharpnessRes <;> simp [hs]

theorem setRSRSharpness_inited (x : Int) (v : Vendor) (inited : Bool) :
    (SetRSRSharpness x v inited).2.2.1 =
      if x < 0 ∨ x > 100 then inited else (inited || (v.initRes == .ok)) := by
  by_cases hx : x < 0 ∨ x > 100
  · rw [setRSRSharpness_out_of_range x v inited hx, if_pos hx]
  · rw [if_neg hx]
    simp only [SetRSRSharpness]
    rw [if_neg hx]
    cases hc : chainOk v inited <;>
      cases ha : (v.rsr.acquireRes == .ok) && v.rsr.present <;>
      cases hs : v.rsr.setSharpnessRes <;>
      simp [get3d_fst, get3d_inited, hc, ha, hs]

theorem setRSRSharpness_initCalls (x : Int) (v : Vendor) (inited : Bool) :
    (SetRSRSharpness x v inited).2.2.2.initCalls =
      if x < 0 ∨ x > 100 then 0 else (if inited then 0 else 1) := by
  by_cases hx : x < 0 ∨ x > 100
  · rw [setRSRSharpness_out_of_range x v inited hx, if_pos hx]
    rfl
  · rw [if_neg hx]
    simp only [SetRSRSharpness]
    rw [if_neg hx]
    cases hc : chainOk v inited <;>
      cases ha : (v.rsr.acquireRes == .ok) && v.rsr.present <;>
      cases hs : v.rsr.setSharpnessRes <;>
      simp [get3d_fst, hc, ha, hs, Counts.add, get3d_initCalls]

theorem setRSRSharpness_featCalls (x : Int) (v : Vendor) (inited : Bool) :
    (SetRSRSharpness x v inited).2.2.2.featCalls =
      if x < 0 ∨ x > 100 then 0 else (if chainOk v inited then 1 else 0) := by
  by_cases hx : x < 0 ∨ x > 100
  · rw [setRSRSharpness_out_of_range x v inited hx, if_pos hx]
    rfl
  · rw [if_neg hx]
    simp only [SetRSRSharpness]
    rw [if_neg hx]
    cases hc : chainOk v inited <;>
      cases ha : (v.rsr.acquireRes == .ok) && v.rsr.present <;>
      cases hs : v.rsr.setSharpnessRes <;>
      simp [get3d_fst, hc, ha, hs, Counts.add, get3d_featCalls]

theorem setRSRSharpness_balanced (x : Int) (v : Vendor) (inited : Bool)
    (h1 : v.gpusRes = .fail → v.gpusHandle = none)
    (h2 : v.atRes = .fail → firstAdapterPresent v = false) :
    balanced (SetRSRSharpness x v inited).2.2.2 := by
  obtain ⟨hb1, hb2⟩ := get3d_balance v inited h1 h2
  by_cases hx : x < 0 ∨ x > 100
  · rw [setRSRSharpness_out_of_range x v inited hx]
    exact ⟨rfl, rfl, rfl, rfl⟩
  · simp only [SetRSRSharpness, balanced]
    rw [if_neg hx]
    cases hc : chainOk v inited <;>
      cases ha : (v.rsr.acquireRes == .ok) && v.rsr.present <;>
      cases hs : v.rsr.setSharpnessRes <;>
      simp [get3d_fst, hc, ha, hs, Counts.add, hb1, hb2, get3d_svcAcq,
        get3d_svcRel, get3d_featAcq, get3d_featRel]

theorem chainOk_or (v : Vendor) (i : Bool) :
    chainOk v (i || (v.initRes == .ok)) = chainOk v i := by
  simp [chainOk, Bool.or_assoc]

theorem chainOk_noAdapters (v : Vendor) (i : Bool)
    (h : v.gpusHandle = some [] ∨ v.gpusRes = .fail ∨ v.gpusHandle = none) :
    chainOk v i = false := by
  rcases h with h | h | h <;> simp [chainOk, h]

theorem chainOk_cons (v : Vendor) (i : Bool) (g : GPUInfo) (l : List GPUInfo) :
    chainOk { v with gpusHandle := some (g :: l) } i =
      ((i || (v.initRes == .ok)) && v.sysPresent && (v.gpusRes == .ok) &&
        (v.atRes == .ok) && v.settingsHandle) := by
  simp [chainOk]

theorem setFeat_initRes (v : Vendor) (k : FeatKind) (f : Feature) :
    (v.setFeat k f).initRes = v.initRes := by
  cases k <;> rfl

theorem runOp_init_facts (op : Op) (v : Vendor) (i : Bool)
    (h : v.initRes = .ok) :
    (runOp op v i).2.1.initRes = .ok ∧
      ((runOp op v i).2.2.1 = true ∧
          (runOp op v i).2.2.2.initCalls ≤ (if i then 0 else 1) ∨
        (runOp op v i).2.2.1 = i ∧ (runOp op v i).2.2.2.initCalls = 0) := by
  cases op
  case hasRSRSupport =>
    refine ⟨h, Or.inl ⟨?_, ?_⟩⟩
    · rw [show (runOp .hasRSRSupport v i).2.2.1 = (hasSupportOp .rsr v i).2.1 from rfl,
        hasSupportOp_inited, h]
      simp
    · rw [show (runOp .hasRSRSupport v i).2.2.2 = (hasSupportOp .rsr v i).2.2 from rfl,
        hasSupportOp_initCalls]
  case getRSRState =>
    refine ⟨h, Or.inl ⟨?_, ?_⟩⟩
    · rw [show (runOp .getRSRState v i).2.2.1 = (getStateOp .rsr v i).2.1 from rfl,
        getStateOp_inited, h]
      simp
    · rw [show (runOp .getRSRState v i).2.2.2 = (getStateOp .rsr v i).2.2 from rfl,
        getStateOp_initCalls]
  case setRSR x =>
    refine ⟨?_, Or.inl ⟨?_, ?_⟩⟩
    · rw [show (runOp (.setRSR x) v i).2.1 = (setStateOp .rsr x v i).2.1 from rfl,
        setStateOp_vendor]
      split
      · rw [setFeat_initRes]; exact h
      · exact h
    · rw [show (runOp (.setRSR x) v i).2.2.1 = (setStateOp .rsr x v i).2.2.1 from rfl,
        setStateOp_inited, h]
      simp
    · rw [show (runOp (.setRSR x) v i).2.2.2 = (setStateOp .rsr x v i).2.2.2 from rfl,
        setStateOp_initCalls]
  case getRSRSharpness =>
    refine ⟨h, Or.inl ⟨?_, ?_⟩⟩
    · rw [show (runOp .getRSRSharpness v i).2.2.1 = (GetRSRSharpness v i).2.1 from rfl,
        getRSRSharpness_inited, h]
      simp
    · rw [show (runOp .getRSRSharpness v i).2.2.2 = (GetRSRSharpness v i).2.2 from rfl,
        getRSRSharpness_initCalls]
  case setRSRSharpness x =>
    by_cases hx : x < 0 ∨ x > 100
    · refine ⟨?_, Or.inr ⟨?_, ?_⟩⟩
      · rw [show (runOp (.setRSRSharpness x) v i).2.1 = (SetRSRSharpness x v i).2.1 from rfl,
          setRSRSharpness_out_of_range x v i hx]
        exact h
      · rw [show (runOp (.setRSRSharpness x) v i).2.2.1 = (SetRSRSharpness x v i).2.2.1 from rfl,
          setRSRSharpness_out_of_range x v i hx]
      · rw [show (runOp (.setRSRSharpness x) v i).2.2.2 = (SetRSRSharpness x v i).2.2.2 from rfl,
          setRSRSharpness_out_of_range x v i hx]
        rfl
    · refine ⟨?_, Or.inl ⟨?_, ?_⟩⟩
      · rw [show (runOp (.setRSRSharpness x) v i).2.1 = (SetRSRSharpness x v i).2.1 from rfl,
          setRSRSharpness_vendor]
        split
        · exact h
        · exact h
      · rw [show (runOp (.setRSRSharpness x) v i).2.2.1 = (SetRSRSharpness x v i).2.2.1 from rfl,
          setRSRSharpness_inited, if_neg hx, h]
        simp
      · rw [show (runOp (.setRSRSharpness x) v i).2.2.2 = (SetRSRSharpness x v i).2.2.2 from rfl,
          setRSRSharpness_initCalls, if_neg hx]
  case hasAFMFSupport =>
    refine ⟨h, Or.inl ⟨?_, ?_⟩⟩
    · rw [show (runOp .hasAFMFSupport v i).2.2.1 = (hasSupportOp .frtc v i).2.1 from rfl,
        hasSupportOp_inited, h]
      simp
    · rw [show (runOp .hasAFMFSupport v i).2.2.2 = (hasSupportOp .frtc v i).2.2 from rfl,
        hasSupportOp_initCalls]
  case getAFMFState =>
    refine ⟨h, Or.inl ⟨?_, ?_⟩⟩
    · rw [show (runOp .getAFMFState v i).2.2.1 = (getStateOp .frtc v i).2.1 from rfl,
        getStateOp_inited, h]
      simp
    · rw [show (runOp .getAFMFState v i).2.2.2 = (getStateOp .frtc v i).2.2 from rfl,
        getStateOp_initCalls]
  case setAFMFState x =>
    refine ⟨?_, Or.inl ⟨?_, ?_⟩⟩
    · rw [show (runOp (.setAFMFState x) v i).2.1 = (setStateOp .frtc x v i).2.1 from rfl,
        setStateOp_vendor]
      split
      · rw [setFeat_initRes]; exact h
      · exact h
    · rw [show (runOp (.setAFMFState x) v i).2.2.1 = (setStateOp .frtc x v i).2.2.1 from rfl,
        setStateOp_inited, h]
      simp
    · rw [show (runOp (.setAFMFState x) v i).2.2.2 = (setStateOp .frtc x v i).2.2.2 from rfl,
        setStateOp_initCalls]
  case hasAntiLagSupport =>
    refine ⟨h, Or.inl ⟨?_, ?_⟩⟩
    · rw [show (runOp .hasAntiLagSupport v i).2.2.1 = (hasSupportOp .antiLag v i).2.1 from rfl,
        hasSupportOp_inited, h]
      simp
    · rw [show (runOp .hasAntiLagSupport v i).2.2.2 = (hasSupportOp .antiLag v i).2.2 from rfl,
        hasSupportOp_initCalls]
  case getAntiLagState =>
    refine ⟨h, Or.inl ⟨?_, ?_⟩⟩
    · rw [show (runOp .getAntiLagState v i).2.2.1 = (getStateOp .antiLag v i).2.1 from rfl,
        getStateOp_inited, h]
      simp
    · rw [show (runOp .getAntiLagState v i).2.2.2 = (getStateOp .antiLag v i).2.2 from rfl,
        getStateOp_initCalls]
  case setAntiLagState x =>
    refine ⟨?_, Or.inl ⟨?_, ?_⟩⟩
    · rw [show (runOp (.setAntiLagState x) v i).2.1 = (setStateOp .antiLag x v i).2.1 from rfl,
        setStateOp_vendor]
      split
      · rw [setFeat_initRes]; exact h
      · exact h
    · rw [show (runOp (.setAntiLagState x) v i).2.2.1 = (setStateOp .antiLag x v i).2.2.1 from rfl,
        setStateOp_inited, h]
      simp
    · rw [show (runOp (.setAntiLagState x) v i).2.2.2 = (setStateOp .antiLag x v i).2.2.2 from rfl,
        setStateOp_initCalls]

theorem runSeq_initCalls_le (ops : List Op) (v : Vendor) (i : Bool)
    (h : v.initRes = .ok) :
    (runSeq ops v i).2.2.initCalls ≤ (if i then 0 else 1) := by
  induction ops generalizing v i with
  | nil =>
    simp [runSeq, Counts.zero]
  | cons op rest ih =>
    obtain ⟨h3, hcase⟩ := runOp_init_facts op v i h
    have hrec := ih (runOp op v i).2.1 (runOp op v i).2.2.1 h3
    simp only [runSeq, Counts.add]
    rcases hcase with ⟨hi1, hc1⟩ | ⟨hi1, hc1⟩
    · rw [hi1] at hrec ⊢
      simp only [if_true] at hrec
      omega
    · rw [hi1] at hrec ⊢
      omega

/-- C1: the source's AFMF exports do not target the AFMF frame-interpolation
interface: they acquire `GetFrameRateTargetControl`.  At a vendor state whose
AFMF interface is enabled but whose frame-rate-target-control interface is
disabled, `GetAFMFState` returns `false`; `HasAFMFSupport` follows the FRTC
handle, not the AFMF one; and `SetAFMFState true` mutates the FRTC enabled
flag while leaving the AFMF flag untouched. -/
theorem c1_afmf_exports_target_frtc :
    (GetAFMFState { frtc := { enabled := false }, afmf := { enabled := true } }
        false).1 = false ∧
      (HasAFMFSupport { frtc := { present := false }, afmf := { present := true } }
          false).1 = false ∧
      ((SetAFMFState true {} false).2.1).frtc.enabled = true ∧
      ((SetAFMFState true {} false).2.1).afmf.enabled = false := by
  decide

/-- C2 (counterexample): when `GetGPUs` returns a failed status together with
a non-null list handle, `Get3DGraphicsServices` returns without releasing
that handle; likewise, when `At(0)` returns a failed status together with a
non-null adapter handle, the adapter handle is never released.  On both
vendor responses the acquire/release counts are not balanced. -/
theorem c2_counterexample :
    ¬ balanced (runOp .hasRSRSupport
        { gpusRes := .fail, gpusHandle := some [⟨0, 0⟩] } false).2.2.2 ∧
      ¬ balanced (runOp .hasRSRSupport { atRes := .fail } false).2.2.2 := by
  unfold balanced
  decide

/-- C2 (amended): for every exported operation and every vendor response in
which a failed `GetGPUs` comes with a null list handle and a failed `At(0)`
comes with a null adapter handle, every handle acquired during the call is
released exactly once before the call returns: acquire count equals release
count for the adapter-enumeration, adapter, 3D-settings-service and feature
handle types.  (Failed feature acquisitions may come with non-null handles:
those are released unconditionally by the source.) -/
theorem c2_handle_balance (op : Op) (v : Vendor) (inited : Bool)
    (h1 : v.gpusRes = .fail → v.gpusHandle = none)
    (h2 : v.atRes = .fail → firstAdapterPresent v = false) :
    balanced (runOp op v inited).2.2.2 := by
  cases op
  case hasRSRSupport => exact hasSupportOp_balanced .rsr v inited h1 h2
  case getRSRState => exact getStateOp_balanced .rsr v inited h1 h2
  case setRSR x => exact setStateOp_balanced .rsr x v inited h1 h2
  case getRSRSharpness => exact getRSRSharpness_balanced v inited h1 h2
  case setRSRSharpness x => exact setRSRSharpness_balanced x v inited h1 h2
  case hasAFMFSupport => exact hasSupportOp_balanced .frtc v inited h1 h2
  case getAFMFState => exact getStateOp_balanced .frtc v inited h1 h2
  case setAFMFState x => exact setStateOp_balanced .frtc x v inited h1 h2
  case hasAntiLagSupport => exact hasSupportOp_balanced .antiLag v inited h1 h2
  case getAntiLagState => exact getStateOp_balanced .antiLag v inited h1 h2
  case setAntiLagState x => exact setStateOp_balanced .antiLag x v inited h1 h2

/-- C2 witness: the balance theorem applied at a concrete healthy vendor. -/
theorem c2_witness : balanced (runOp (.setRSR true) {} false).2.2.2 :=
  c2_handle_balance (.setRSR true) {} false (by decide) (by decide)

/-- C3: for every integer input outside `[0,100]`, `SetRSRSharpness` returns
`false`, leaves the vendor and initialization state untouched, and performs
no vendor interaction whatsoever (all instrumentation counts are zero). -/
theorem c3_out_of_range_rejected (x : Int) (v : Vendor) (inited : Bool)
    (hx : x < 0 ∨ x > 100) :
    SetRSRSharpness x v inited = (false, v, inited, Counts.zero) := by
  simp only [SetRSRSharpness]
  rw [if_pos hx]

/-- C3 witness: the rejection theorem applied at input 101. -/
theorem c3_witness :
    SetRSRSharpness 101 {} false = (false, {}, false, Counts.zero) :=
  c3_out_of_range_rejected 101 {} false (by decide)

/-- C4 (counterexample): when root initialization fails, it is re-attempted
on every call, so two calls invoke the initialization step twice. -/
theorem c4_counterexample :
    ¬ ((runSeq [.hasRSRSupport, .hasRSRSupport] { initRes := .fail }
        false).2.2.initCalls ≤ 1) := by
  decide

/-- C4 (amended): across any sequence of sequential exported-operation calls
starting with the process flag clear, provided the vendor root
initialization succeeds when invoked, the root-initialization step is
invoked at most once. -/
theorem c4_init_at_most_once (ops : List Op) (v : Vendor)
    (h : v.initRes = .ok) :
    (runSeq ops v false).2.2.initCalls ≤ 1 := by
  have hb := runSeq_initCalls_le ops v false h
  simpa using hb

/-- C4 witness: the initialization-once theorem applied to a concrete
three-call sequence. -/
theorem c4_witness :
    (runSeq [.hasRSRSupport, .getAFMFState, .setRSR true] {}
        false).2.2.initCalls ≤ 1 :=
  c4_init_at_most_once [.hasRSRSupport, .getAFMFState, .setRSR true] {}
    (by decide)

/-- C5 (counterexample): the source neither clamps nor range-checks the
vendor-reported sharpness; a vendor reporting 150 with a successful query
makes `GetRSRSharpness` return 150, which is neither in `[0,100]` nor the
sentinel −1. -/
theorem c5_counterexample :
    (GetRSRSharpness { rsr := { sharpness := 150 } } false).1 = 150 ∧
      ¬ ((0 ≤ (150 : Int) ∧ (150 : Int) ≤ 100) ∨ (150 : Int) = -1) := by
  decide

/-- C5 (amended): provided the vendor reports a sharpness value in `[0,100]`,
`GetRSRSharpness` returns an integer in `[0,100]` or the sentinel −1, and it
returns −1 exactly when some handle in the resolution chain is unobtainable
or the sharpness query fails. -/
theorem c5_sharpness_range (v : Vendor) (i : Bool)
    (h0 : 0 ≤ v.rsr.sharpness) (h100 : v.rsr.sharpness ≤ 100) :
    (0 ≤ (GetRSRSharpness v i).1 ∧ (GetRSRSharpness v i).1 ≤ 100 ∨
        (GetRSRSharpness v i).1 = -1) ∧
      ((GetRSRSharpness v i).1 = -1 ↔
        ¬ (chainOk v i = true ∧ featAcquired v .rsr = true ∧
            v.rsr.getSharpnessRes = .ok)) := by
  simp only [getRSRSharpness_fst]
  by_cases hc : (chainOk v i && featAcquired v .rsr &&
      (v.rsr.getSharpnessRes == .ok)) = true
  · simp only [hc, if_true]
    simp only [Bool.and_eq_true, beq_iff_eq] at hc
    constructor
    · exact Or.inl ⟨h0, h100⟩
    · constructor
      · intro hm1
        omega
      · intro hn
        exact absurd ⟨hc.1.1, hc.1.2, hc.2⟩ hn
  · rw [if_neg hc]
    refine ⟨Or.inr rfl, ?_⟩
    simp only [Bool.and_eq_true, beq_iff_eq] at hc
    constructor
    · intro _ hand
      exact hc ⟨⟨hand.1, hand.2.1⟩, hand.2.2⟩
    · intro _
      rfl

/-- C5 witness: the amended sharpness theorem applied at a healthy vendor
reporting 80. -/
theorem c5_witness :
    (0 ≤ (GetRSRSharpness { rsr := { sharpness := 80 } } false).1 ∧
        (GetRSRSharpness { rsr := { sharpness := 80 } } false).1 ≤ 100 ∨
      (GetRSRSharpness { rsr := { sharpness := 80 } } false).1 = -1) ∧
      ((GetRSRSharpness { rsr := { sharpness := 80 } } false).1 = -1 ↔
        ¬ (chainOk { rsr := { sharpness := 80 } } false = true ∧
            featAcquired { rsr := { sharpness := 80 } } .rsr = true ∧
            ({ rsr := { sharpness := 80 } } : Vendor).rsr.getSharpnessRes =
              .ok)) :=
  c5_sharpness_range { rsr := { sharpness := 80 } } false (by decide) (by decide)

/-- C6: when the vendor reports no adapters (empty list, failed enumeration,
or null list handle), every exported operation returns its failure sentinel
(`false`, or −1 for `GetRSRSharpness`) and no feature-handle acquisition is
attempted. -/
theorem c6_no_adapters (op : Op) (v : Vendor) (i : Bool)
    (h : v.gpusHandle = some [] ∨ v.gpusRes = .fail ∨ v.gpusHandle = none) :
    (runOp op v i).1 = op.failSentinel ∧
      (runOp op v i).2.2.2.featCalls = 0 := by
  have hc := chainOk_noAdapters v i h
  cases op
  case hasRSRSupport =>
    exact ⟨by simp [runOp, HasRSRSupport, hasSupportOp_fst, hc, Op.failSentinel],
      by simp [runOp, HasRSRSupport, hasSupportOp_featCalls, hc]⟩
  case getRSRState =>
    exact ⟨by simp [runOp, GetRSRState, getStateOp_fst, hc, Op.failSentinel],
      by simp [runOp, GetRSRState, getStateOp_featCalls, hc]⟩
  case setRSR x =>
    exact ⟨by simp [runOp, SetRSR, setStateOp_fst, hc, Op.failSentinel],
      by simp [runOp, SetRSR, setStateOp_featCalls, hc]⟩
  case getRSRSharpness =>
    exact ⟨by simp [runOp, getRSRSharpness_fst, hc, Op.failSentinel],
      by simp [runOp, getRSRSharpness_featCalls, hc]⟩
  case setRSRSharpness x =>
    refine ⟨?_, ?_⟩
    · have := setRSRSharpness_fst x v i
      rw [hc] at this
      simp only [runOp, Op.failSentinel]
      rw [this]
      split <;> simp
    · have := setRSRSharpness_featCalls x v i
      rw [hc] at this
      simp only [runOp]
      rw [this]
      split <;> rfl
  case hasAFMFSupport =>
    exact ⟨by simp [runOp, HasAFMFSupport, hasSupportOp_fst, hc, Op.failSentinel],
      by simp [runOp, HasAFMFSupport, hasSupportOp_featCalls, hc]⟩
  case getAFMFState =>
    exact ⟨by simp [runOp, GetAFMFState, getStateOp_fst, hc, Op.failSentinel],
      by simp [runOp, GetAFMFState, getStateOp_featCalls, hc]⟩
  case setAFMFState x =>
    exact ⟨by simp [runOp, SetAFMFState, setStateOp_fst, hc, Op.failSentinel],
      by simp [runOp, SetAFMFState, setStateOp_featCalls, hc]⟩
  case hasAntiLagSupport =>
    exact ⟨by simp [runOp, HasAntiLagSupport, hasSupportOp_fst, hc, Op.failSentinel],
      by simp [runOp, HasAntiLagSupport, hasSupportOp_featCalls, hc]⟩
  case getAntiLagState =>
    exact ⟨by simp [runOp, GetAntiLagState, getStateOp_fst, hc, Op.failSentinel],
      by simp [runOp, GetAntiLagState, getStateOp_featCalls, hc]⟩
  case setAntiLagState x =>
    exact ⟨by simp [runOp, SetAntiLagState, setStateOp_fst, hc, Op.failSentinel],
      by simp [runOp, SetAntiLagState, setStateOp_featCalls, hc]⟩

/-- C6 witness: the no-adapters theorem applied at a vendor with an empty
adapter list. -/
theorem c6_witness :
    (runOp .hasAFMFSupport { gpusHandle := some [] } false).1 =
        Op.failSentinel .hasAFMFSupport ∧
      (runOp .hasAFMFSupport { gpusHandle := some [] }
          false).2.2.2.featCalls = 0 :=
  c6_no_adapters .hasAFMFSupport { gpusHandle := some [] } false (Or.inl rfl)

/-- C7: a failed Set operation never partially applies: whenever any of the
set operations returns `false`, the vendor-side state is left exactly as it
was; in particular `SetAntiLagState true` against a vendor whose underlying
write fails returns `false`, and a subsequent `GetAntiLagState` returns the
pre-call value. -/
theorem c7_failed_set_leaves_state (v : Vendor) (i : Bool) :
    (∀ k b, (setStateOp k b v i).1 = false → (setStateOp k b v i).2.1 = v) ∧
      (∀ x, (SetRSRSharpness x v i).1 = false →
        (SetRSRSharpness x v i).2.1 = v) ∧
      (v.antiLag.setEnabledRes = .fail →
        (SetAntiLagState true v i).1 = false ∧
          (GetAntiLagState (SetAntiLagState true v i).2.1
              (SetAntiLagState true v i).2.2.1).1 =
            (GetAntiLagState v i).1) := by
  refine ⟨?_, ?_, ?_⟩
  · intro k b hfail
    rw [setStateOp_vendor, hfail]
    simp
  · intro x hfail
    rw [setRSRSharpness_vendor, hfail]
    simp
  · intro hfail
    have hfst : (SetAntiLagState true v i).1 = false := by
      rw [show (SetAntiLagState true v i).1 = (setStateOp .antiLag true v i).1
          from rfl, setStateOp_fst]
      simp [Vendor.feat, hfail]
    refine ⟨hfst, ?_⟩
    have hv : (SetAntiLagState true v i).2.1 = v := by
      rw [show (SetAntiLagState true v i).2.1 =
          (setStateOp .antiLag true v i).2.1 from rfl, setStateOp_vendor]
      rw [show (setStateOp .antiLag true v i).1 = (SetAntiLagState true v i).1
          from rfl, hfst]
      simp
    have hi : (SetAntiLagState true v i).2.2.1 = (i || (v.initRes == .ok)) :=
      setStateOp_inited .antiLag true v i
    rw [hv, hi]
    show (getStateOp .antiLag v (i || (v.initRes == .ok))).1 =
      (getStateOp .antiLag v i).1
    rw [getStateOp_fst, getStateOp_fst, chainOk_or]

/-- C7 witness: a set that fails on acquisition leaves the vendor unchanged,
and the write-failure scenario returns false with the get unchanged. -/
theorem c7_witness :
    (setStateOp .rsr true { rsr := { acquireRes := .fail } } false).2.1 =
        { rsr := { acquireRes := .fail } } ∧
      ((SetAntiLagState true { antiLag := { setEnabledRes := .fail } }
            false).1 = false ∧
        (GetAntiLagState
            (SetAntiLagState true { antiLag := { setEnabledRes := .fail } }
              false).2.1
            (SetAntiLagState true { antiLag := { setEnabledRes := .fail } }
              false).2.2.1).1 =
          (GetAntiLagState { antiLag := { setEnabledRes := .fail } }
            false).1) :=
  ⟨(c7_failed_set_leaves_state { rsr := { acquireRes := .fail } } false).1
      .rsr true (by decide),
    (c7_failed_set_leaves_state { antiLag := { setEnabledRes := .fail } }
      false).2.2 rfl⟩

/-- C8: every read-only operation is idempotent: it leaves the vendor state
unchanged, and running it a second time from the process state it produced
yields the same result. -/
theorem c8_get_idempotent (op : Op) (hop : op.isGet = true) (v : Vendor)
    (i : Bool) :
    (runOp op v i).2.1 = v ∧
      (runOp op ((runOp op v i).2.1) ((runOp op v i).2.2.1)).1 =
        (runOp op v i).1 := by
  cases op
  case setRSR x => simp [Op.isGet] at hop
  case setRSRSharpness x => simp [Op.isGet] at hop
  case setAFMFState x => simp [Op.isGet] at hop
  case setAntiLagState x => simp [Op.isGet] at hop
  case hasRSRSupport =>
    refine ⟨rfl, ?_⟩
    show OpResult.b (hasSupportOp .rsr v ((hasSupportOp .rsr v i).2.1)).1 =
      OpResult.b (hasSupportOp .rsr v i).1
    rw [hasSupportOp_inited, hasSupportOp_fst, hasSupportOp_fst, chainOk_or]
  case getRSRState =>
    refine ⟨rfl, ?_⟩
    show OpResult.b (getStateOp .rsr v ((getStateOp .rsr v i).2.1)).1 =
      OpResult.b (getStateOp .rsr v i).1
    rw [getStateOp_inited, getStateOp_fst, getStateOp_fst, chainOk_or]
  case getRSRSharpness =>
    refine ⟨rfl, ?_⟩
    show OpResult.i (GetRSRSharpness v ((GetRSRSharpness v i).2.1)).1 =
      OpResult.i (GetRSRSharpness v i).1
    rw [getRSRSharpness_inited, getRSRSharpness_fst, getRSRSharpness_fst,
      chainOk_or]
  case hasAFMFSupport =>
    refine ⟨rfl, ?_⟩
    show OpResult.b (hasSupportOp .frtc v ((hasSupportOp .frtc v i).2.1)).1 =
      OpResult.b (hasSupportOp .frtc v i).1
    rw [hasSupportOp_inited, hasSupportOp_fst, hasSupportOp_fst, chainOk_or]
  case getAFMFState =>
    refine ⟨rfl, ?_⟩
    show OpResult.b (getStateOp .frtc v ((getStateOp .frtc v i).2.1)).1 =
      OpResult.b (getStateOp .frtc v i).1
    rw [getStateOp_inited, getStateOp_fst, getStateOp_fst, chainOk_or]
  case hasAntiLagSupport =>
    refine ⟨rfl, ?_⟩
    show OpResult.b (hasSupportOp .antiLag v
        ((hasSupportOp .antiLag v i).2.1)).1 =
      OpResult.b (hasSupportOp .antiLag v i).1
    rw [hasSupportOp_inited, hasSupportOp_fst, hasSupportOp_fst, chainOk_or]
  case getAntiLagState =>
    refine ⟨rfl, ?_⟩
    show OpResult.b (getStateOp .antiLag v
        ((getStateOp .antiLag v i).2.1)).1 =
      OpResult.b (getStateOp .antiLag v i).1
    rw [getStateOp_inited, getStateOp_fst, getStateOp_fst, chainOk_or]

/-- C8 witness: idempotence of `GetRSRState` at a concrete vendor, starting
uninitialized. -/
theorem c8_witness :
    (runOp .getRSRState {} false).2.1 = {} ∧
      (runOp .getRSRState ((runOp .getRSRState {} false).2.1)
          ((runOp .getRSRState {} false).2.2.1)).1 =
        (runOp .getRSRState {} false).1 :=
  c8_get_idempotent .getRSRState rfl {} false

/-- C9: for every feature, if the enabled query fails the failure is
swallowed and `Get<Feature>State` returns the default `false`; the same
value is returned when the chain or the feature acquisition fails. -/
theorem c9_enabled_query_failure_swallowed (k : FeatKind) (v : Vendor)
    (i : Bool) :
    ((v.feat k).isEnabledRes = .fail → (getStateOp k v i).1 = false) ∧
      (chainOk v i = false ∨ featAcquired v k = false →
        (getStateOp k v i).1 = false) := by
  constructor
  · intro h
    rw [getStateOp_fst, h]
    simp
  · intro h
    rw [getStateOp_fst]
    rcases h with h | h <;> simp [h]

/-- C9 witness: a vendor whose FRTC interface reports enabled but whose
enabled query fails still yields `false` from the state getter. -/
theorem c9_witness :
    (getStateOp .frtc
        { frtc := { isEnabledRes := .fail, enabled := true } } false).1 =
      false :=
  (c9_enabled_query_failure_swallowed .frtc
    { frtc := { isEnabledRes := .fail, enabled := true } } false).1 rfl

/-- C10: the adapter handle is never consulted after the null check and the
3D-settings service comes from the system object, so two vendor states that
differ only in the identity or properties of the enumerated GPUs (both
having a first adapter) give every exported operation the same result. -/
theorem c10_gpu_identity_irrelevant (op : Op) (v : Vendor) (i : Bool)
    (g1 g2 : GPUInfo) (l1 l2 : List GPUInfo) :
    (runOp op { v with gpusHandle := some (g1 :: l1) } i).1 =
      (runOp op { v with gpusHandle := some (g2 :: l2) } i).1 := by
  cases op
  case hasRSRSupport =>
    simp only [runOp, HasRSRSupport]
    rw [hasSupportOp_fst, hasSupportOp_fst, chainOk_cons, chainOk_cons]
    rfl
  case getRSRState =>
    simp only [runOp, GetRSRState]
    rw [getStateOp_fst, getStateOp_fst, chainOk_cons, chainOk_cons]
    rfl
  case setRSR x =>
    simp only [runOp, SetRSR]
    rw [setStateOp_fst, setStateOp_fst, chainOk_cons, chainOk_cons]
    rfl
  case getRSRSharpness =>
    simp only [runOp]
    rw [getRSRSharpness_fst, getRSRSharpness_fst, chainOk_cons, chainOk_cons]
    rfl
  case setRSRSharpness x =>
    simp only [runOp]
    rw [setRSRSharpness_fst, setRSRSharpness_fst, chainOk_cons, chainOk_cons]
    rfl
  case hasAFMFSupport =>
    simp only [runOp, HasAFMFSupport]
    rw [hasSupportOp_fst, hasSupportOp_fst, chainOk_cons, chainOk_cons]
    rfl
  case getAFMFState =>
    simp only [runOp, GetAFMFState]
    rw [getStateOp_fst, getStateOp_fst, chainOk_cons, chainOk_cons]
    rfl
  case setAFMFState x =>
    simp only [runOp, SetAFMFState]
    rw [setStateOp_fst, setStateOp_fst, chainOk_cons, chainOk_cons]
    rfl
  case hasAntiLagSupport =>
    simp only [runOp, HasAntiLagSupport]
    rw [hasSupportOp_fst, hasSupportOp_fst, chainOk_cons, chainOk_cons]
    rfl
  case getAntiLagState =>
    simp only [runOp, GetAntiLagState]
    rw [getStateOp_fst, getStateOp_fst, chainOk_cons, chainOk_cons]
    rfl
  case setAntiLagState x =>
    simp only [runOp, SetAntiLagState]
    rw [setStateOp_fst, setStateOp_fst, chainOk_cons, chainOk_cons]
    rfl
